import Mathlib

/-!
Verification of the opencode-orca dispatch core: message envelopes,
action classification, autonomy gate policy, pre-dispatch gate
enforcement, retry-on-failure execution, validation-with-retry, and the
dispatch orchestrator. Definitions are shallow embeddings of the
TypeScript sources (src/plugin/autonomy.ts, gates.ts, retry.ts,
dispatch.ts, schemas). Autonomy levels, classifications and gate
decisions are string unions in the source, so they are modelled as
`String` here; the out-of-enum default branches of the source remain
exercisable that way.
-/

namespace Orca

/-! ## Data model (schemas/messages.ts, schemas/payloads.ts) -/

/-- TaskPayload: `{agent_id, prompt, parent_session_id?}` (context omitted:
no claim touches it). -/
structure TaskPayload where
  agent_id : String
  prompt : String
  parent_session_id : Option String
deriving Repr, DecidableEq

/-- Task request envelope `{type:'task', session_id, timestamp, payload}`. -/
structure TaskMessage where
  session_id : String
  timestamp : String
  payload : TaskPayload
deriving Repr, DecidableEq

/-- FailurePayload: `{agent_id?, code, message, cause?}`. `code` is a string
enum at runtime in the source. -/
structure FailurePayload where
  agent_id : Option String
  code : String
  message : String
  cause : Option String
deriving Repr, DecidableEq

/-- Failure envelope as built by the source (carries a session_id field,
see gates.ts and retry.test.ts constructions). -/
structure FailureMessage where
  session_id : String
  timestamp : String
  payload : FailurePayload
deriving Repr, DecidableEq

/-- One option of an escalation payload: `{label, value}`. -/
structure EscalationOption where
  label : String
  value : String
deriving Repr, DecidableEq

/-- EscalationPayload: `{agent_id, decision_id, decision, options, context}`. -/
structure EscalationPayload where
  agent_id : String
  decision_id : String
  decision : String
  options : List EscalationOption
  context : String
deriving Repr, DecidableEq

/-- Escalation envelope as built by gates.ts (carries a session_id field). -/
structure EscalationMessage where
  session_id : String
  timestamp : String
  payload : EscalationPayload
deriving Repr, DecidableEq

/-- ResultPayload: `{agent_id, content}`. -/
structure ResultPayload where
  agent_id : String
  content : String
deriving Repr, DecidableEq

/-- Result envelope (`wrapAsResultMessage` output; has a session_id per
validation.test.ts). -/
structure ResultMessage where
  session_id : String
  timestamp : String
  payload : ResultPayload
deriving Repr, DecidableEq

/-- MessageEnvelope: tagged union over `type`. The constructor plays the
role of the `type` discriminator; variants not needed by any claim
(answer, plan, question, checkpoint, user_input, interrupt) are folded
into `other` with their type tag. -/
inductive MEnvelope where
  | task (msg : TaskMessage)
  | failure (msg : FailureMessage)
  | escalation (msg : EscalationMessage)
  | result (msg : ResultMessage)
  | other (typ : String)
deriving Repr, DecidableEq

/-- `envelope.type === 'failure'` check used by retry.ts. -/
def MEnvelope.isFailure : MEnvelope → Bool
  | .failure _ => true
  | _ => false

/-- Agent registry entry (config.ts AgentConfig; only fields the dispatch
core reads are kept). -/
structure AgentConfig where
  mode : String
  description : String
deriving Repr, DecidableEq

/-- Agent registry `Record<string, AgentConfig>` as an association list. -/
def AgentRegistry := List (String × AgentConfig)

/-- `ctx.agents[targetAgentId]` lookup. -/
def lookupAgent (agents : AgentRegistry) (id : String) : Option AgentConfig :=
  (agents.find? (fun p => p.fst == id)).map Prod.snd

/-! ## Prompt pattern matching (autonomy.ts regexes)

The DANGEROUS_PATTERNS / SIGNIFICANT_PATTERNS of autonomy.ts use only
these regex features: case-insensitive literals, `\s+`, and `\b` word
boundaries, searched anywhere in the prompt. They are embedded as token
lists with explicit boundary flags and a direct matcher. -/

/-- JS regex `\w`: `[A-Za-z0-9_]` (ASCII). -/
def isWordChar (c : Char) : Bool := c.isAlphanum || c == '_'

/-- One pattern token: a literal (stored lowercase, matched
case-insensitively) or `\s+`. -/
inductive Tok where
  | lit (cs : List Char)
  | ws
deriving Repr, DecidableEq

/-- A pattern: optional leading `\b`, token sequence, optional trailing
`\b`. -/
structure Pat where
  leadB : Bool
  toks : List Tok
  trailB : Bool
deriving Repr, DecidableEq

/-- Match a lowercase literal against the input, case-insensitively;
returns the remaining input. -/
def matchLit : List Char → List Char → Option (List Char)
  | [], s => some s
  | _ :: _, [] => none
  | p :: ps, c :: cs => if c.toLower == p then matchLit ps cs else none

/-- Consume a maximal run of further whitespace after `last`. Greedy
matching of `\s+` agrees with the regex here because every token
following `\s+` in the source patterns starts with a non-whitespace
character. -/
def consumeWs : Char → List Char → Char × List Char
  | last, [] => (last, [])
  | last, c :: rest =>
    if c.isWhitespace then consumeWs c rest else (last, c :: rest)

/-- Last character a literal would consume (for the trailing-boundary
check); falls back to the previously consumed character. -/
def lastCharOf (p : List Char) (prev : Option Char) : Option Char :=
  match p.getLast? with
  | some c => some c
  | none => prev

/-- Run the token list; on success, return the last consumed character
and the rest of the input. -/
def matchToks : List Tok → Option Char → List Char → Option (Option Char × List Char)
  | [], last, s => some (last, s)
  | Tok.lit p :: ts, last, s =>
    match matchLit p s with
    | some rest => matchToks ts (lastCharOf p last) rest
    | none => none
  | Tok.ws :: _, _, [] => none
  | Tok.ws :: ts, _, c :: rest =>
    if c.isWhitespace then
      let lr := consumeWs c rest
      matchToks ts (some lr.1) lr.2
    else none

/-- `\b` holds between two (possibly absent) characters iff exactly one
side is a word character. -/
def boundaryHolds (left right : Option Char) : Bool :=
  (match left with | some c => isWordChar c | none => false)
    != (match right with | some c => isWordChar c | none => false)

/-- Does the pattern match starting exactly here (`prev` is the character
just before this position)? -/
def matchAt (prev : Option Char) (p : Pat) (s : List Char) : Bool :=
  (if p.leadB then boundaryHolds prev s.head? else true) &&
    match matchToks p.toks prev s with
    | some (last, rest) =>
      if p.trailB then boundaryHolds last rest.head? else true
    | none => false

/-- Unanchored search, tracking the previous character for `\b`. -/
def patSearch (p : Pat) : Option Char → List Char → Bool
  | prev, s =>
    matchAt prev p s ||
      match s with
      | [] => false
      | c :: rest => patSearch p (some c) rest

/-- `pattern.test(prompt)` for one embedded pattern. -/
def patTest (p : Pat) (s : String) : Bool := patSearch p none s.toList

/-- DANGEROUS_PATTERNS of autonomy.ts, in source order. -/
def dangerousPatterns : List Pat :=
  [ ⟨true, [Tok.lit "delete".toList], true⟩
  , ⟨true, [Tok.lit "drop".toList], true⟩
  , ⟨true, [Tok.lit "remove".toList, Tok.ws, Tok.lit "all".toList], true⟩
  , ⟨true, [Tok.lit "truncate".toList], true⟩
  , ⟨true, [Tok.lit "wipe".toList], true⟩
  , ⟨true, [Tok.lit "destroy".toList], true⟩
  , ⟨true, [Tok.lit "rm".toList, Tok.ws, Tok.lit "-rf".toList], true⟩
  , ⟨true, [Tok.lit "force".toList, Tok.ws, Tok.lit "push".toList], true⟩
  , ⟨false, [Tok.lit "--force".toList], true⟩
  , ⟨true, [Tok.lit "reset".toList, Tok.ws, Tok.lit "--hard".toList], true⟩ ]

/-- SIGNIFICANT_PATTERNS of autonomy.ts, in source order (`\bmigrat` and
`\bdeploy` have no trailing boundary in the source). -/
def significantPatterns : List Pat :=
  [ ⟨true, [Tok.lit "modify".toList], true⟩
  , ⟨true, [Tok.lit "update".toList], true⟩
  , ⟨true, [Tok.lit "change".toList], true⟩
  , ⟨true, [Tok.lit "create".toList], true⟩
  , ⟨true, [Tok.lit "write".toList], true⟩
  , ⟨true, [Tok.lit "implement".toList], true⟩
  , ⟨true, [Tok.lit "refactor".toList], true⟩
  , ⟨true, [Tok.lit "fix".toList], true⟩
  , ⟨true, [Tok.lit "add".toList], true⟩
  , ⟨true, [Tok.lit "migrat".toList], false⟩
  , ⟨true, [Tok.lit "deploy".toList], false⟩
  , ⟨true, [Tok.lit "install".toList], true⟩ ]

/-- Some dangerous pattern matches the prompt. -/
def matchesDangerous (prompt : String) : Bool :=
  dangerousPatterns.any (fun p => patTest p prompt)

/-- Some significant pattern matches the prompt. -/
def matchesSignificant (prompt : String) : Bool :=
  significantPatterns.any (fun p => patTest p prompt)

/-! ## Action classifier and gate policy (autonomy.ts) -/

/-- ROUTINE_AGENTS. -/
def routineAgents : List String := ["researcher", "reviewer"]

/-- SIGNIFICANT_AGENTS. -/
def significantAgents : List String :=
  ["coder", "tester", "document-writer", "strategist"]

/-- DANGEROUS_AGENTS (currently none by default). -/
def dangerousAgents : List String := []

/-- classifyAction of autonomy.ts: dangerous patterns, then agent sets,
then significant patterns, then routine agents, defaulting to routine.
The registry argument is declared but unused in the source
(`_agents`). -/
def classifyAction (task : TaskMessage) (_agents : AgentRegistry) : String :=
  if matchesDangerous task.payload.prompt then "dangerous"
  else if dangerousAgents.contains task.payload.agent_id then "dangerous"
  else if significantAgents.contains task.payload.agent_id then "significant"
  else if matchesSignificant task.payload.prompt then "significant"
  else if routineAgents.contains task.payload.agent_id then "routine"
  else "routine"

/-- determineGate of autonomy.ts: the autonomy-level × classification
switch, with `require_approval` for unknown levels. -/
def determineGate (level classification : String) : String :=
  if level = "supervised" then
    if classification = "dangerous" then "block" else "require_approval"
  else if level = "assisted" then
    if classification = "dangerous" then "block"
    else if classification = "significant" then "require_approval"
    else "proceed"
  else if level = "autonomous" then
    if classification = "dangerous" then "require_approval" else "proceed"
  else "require_approval"

/-! ## Pre-dispatch gate enforcement (gates.ts)

The source obtains a fresh UUID (`randomUUID()`) and the current
timestamp (`new Date().toISOString()`) from the environment; these are
passed in as the `uuid` / `now` arguments. -/

/-- Gate context of gates.ts (level and decision are string unions in
the source, so `String` here). -/
structure GateContext where
  task : TaskMessage
  autonomyLevel : String
  classification : String
  decision : String
deriving Repr, DecidableEq

/-- createBlockedFailure of gates.ts: AUTONOMY_BLOCKED failure with a
fresh session id, message naming classification and level, cause naming
the target agent. -/
def createBlockedFailure (uuid now : String) (ctx : GateContext) : FailureMessage :=
  { session_id := uuid
  , timestamp := now
  , payload :=
    { agent_id := some ctx.task.payload.agent_id
    , code := "AUTONOMY_BLOCKED"
    , message := "Operation blocked: " ++ ctx.classification
        ++ " action not permitted in " ++ ctx.autonomyLevel ++ " mode"
    , cause := some ("The operation targeting agent \"" ++ ctx.task.payload.agent_id
        ++ "\" was classified as \"" ++ ctx.classification
        ++ "\" and is blocked under the current autonomy level \""
        ++ ctx.autonomyLevel ++ "\".") } }

/-- createApprovalEscalation of gates.ts: escalation whose session_id is
the task's session_id and whose decision_id is `approval-` +
session_id. -/
def createApprovalEscalation (now : String) (ctx : GateContext) : EscalationMessage :=
  { session_id := ctx.task.session_id
  , timestamp := now
  , payload :=
    { agent_id := "orca"
    , decision_id := "approval-" ++ ctx.task.session_id
    , decision := "Approve " ++ ctx.classification ++ " action to "
        ++ ctx.task.payload.agent_id ++ "?"
    , options :=
      [ ⟨"Approve", "approve"⟩
      , ⟨"Reject", "reject"⟩
      , ⟨"Approve All (switch to autonomous)", "approve_all"⟩ ]
    , context := "**Target Agent**: " ++ ctx.task.payload.agent_id
        ++ "\n**Action Type**: " ++ ctx.classification
        ++ "\n**Autonomy Level**: " ++ ctx.autonomyLevel
        ++ "\n\n**Task Prompt**:\n" ++ ctx.task.payload.prompt
        ++ "\n\nThis action requires user approval under the current autonomy settings." } }

/-- PreDispatchResult: `{allowed:true} | {allowed:false, response}`. -/
inductive PreDispatchResult where
  | allowed
  | denied (response : MEnvelope)
deriving Repr, DecidableEq

/-- enforcePreDispatchGate of gates.ts: proceed allows; require_approval
escalates; block fails; any other decision escalates (conservative
default branch of the switch). -/
def enforcePreDispatchGate (uuid now : String) (ctx : GateContext) : PreDispatchResult :=
  if ctx.decision = "proceed" then .allowed
  else if ctx.decision = "require_approval" then
    .denied (.escalation (createApprovalEscalation now ctx))
  else if ctx.decision = "block" then
    .denied (.failure (createBlockedFailure uuid now ctx))
  else
    .denied (.escalation (createApprovalEscalation now ctx))

/-! ## Retry-on-failure executor (retry.ts) -/

/-- RetryContext of retry.ts. -/
structure RetryContext where
  failure : FailureMessage
  autonomyLevel : String
  attempts : Nat
  maxRetries : Nat
deriving Repr

/-- RetryDecision of retry.ts. -/
structure RetryDecision where
  shouldRetry : Bool
  reason : String
deriving Repr, DecidableEq

/-- RETRYABLE_ERROR_CODES. -/
def retryableErrorCodes : List String :=
  ["AGENT_ERROR", "TIMEOUT", "VALIDATION_ERROR"]

/-- NON_RETRYABLE_ERROR_CODES. -/
def nonRetryableErrorCodes : List String :=
  ["UNKNOWN_AGENT", "SESSION_NOT_FOUND", "AUTONOMY_BLOCKED", "APPROVAL_REQUIRED"]

/-- shouldAutoRetry of retry.ts, with its exact decision order: budget
check, non-retryable check, then per-level behavior, conservative on
unknown levels. -/
def shouldAutoRetry (ctx : RetryContext) : RetryDecision :=
  let errorCode := ctx.failure.payload.code
  if ctx.attempts ≥ ctx.maxRetries then
    ⟨false, "Maximum retry attempts (" ++ toString ctx.maxRetries ++ ") exceeded"⟩
  else if nonRetryableErrorCodes.contains errorCode then
    ⟨false, "Error code " ++ errorCode ++ " is not retryable"⟩
  else
    let isRetryable := retryableErrorCodes.contains errorCode
    if ctx.autonomyLevel = "supervised" then
      ⟨false, "Supervised mode requires user confirmation for all failures"⟩
    else if ctx.autonomyLevel = "assisted" then
      if isRetryable then
        ⟨true, "Auto-retrying " ++ errorCode ++ " in assisted mode (attempt "
          ++ toString (ctx.attempts + 1) ++ "/" ++ toString ctx.maxRetries ++ ")"⟩
      else
        ⟨false, "Error code " ++ errorCode ++ " requires user attention in assisted mode"⟩
    else if ctx.autonomyLevel = "autonomous" then
      if isRetryable then
        ⟨true, "Auto-retrying " ++ errorCode ++ " in autonomous mode (attempt "
          ++ toString (ctx.attempts + 1) ++ "/" ++ toString ctx.maxRetries ++ ")"⟩
      else
        ⟨false, "Error code " ++ errorCode ++ " is a permanent failure"⟩
    else
      ⟨false, "Unknown autonomy level: " ++ ctx.autonomyLevel⟩

/-- The `while attempts < maxRetries` loop of executeWithRetry, with
`fuel = maxRetries - attempts` driving the recursion (the loop guard
`attempts < maxRetries` is exactly `fuel > 0`). The executor is modelled
as a function of the invocation index; the second component of the
result is the final `attempts` counter, which equals the number of
executor invocations (the source increments `attempts` exactly once per
`executor()` call). -/
def executeWithRetryGo (executor : Nat → MEnvelope) (autonomyLevel : String)
    (maxRetries : Nat) : Nat → FailureMessage → Nat → MEnvelope × Nat
  | 0, cur, attempts => (.failure cur, attempts)
  | fuel + 1, cur, attempts =>
    let decision := shouldAutoRetry ⟨cur, autonomyLevel, attempts, maxRetries⟩
    if decision.shouldRetry then
      match executor attempts with
      | .failure f => executeWithRetryGo executor autonomyLevel maxRetries fuel f (attempts + 1)
      | r => (r, attempts + 1)
    else (.failure cur, attempts)

/-- executeWithRetry of retry.ts. Returns the final envelope together
with the number of executor invocations. -/
def executeWithRetry (failure : FailureMessage) (autonomyLevel : String)
    (maxRetries : Nat) (executor : Nat → MEnvelope) : MEnvelope × Nat :=
  executeWithRetryGo executor autonomyLevel maxRetries maxRetries failure 0

/-! ## Validation-with-retry engine

Modelled from the spec: the file `src/plugin/validation.ts`
(validateMessage, wrapAsResultMessage, createFailureMessage,
validateWithRetry) is absent from the sources; only its tests
(validation.test.ts) and callers (dispatch.ts) are present. The
definitions below follow spec §4.1–§4.2 and the observable behavior
fixed by validation.test.ts. The §4.1 validator (JSON parse + zod
schema) is abstracted as a function argument; its failure result
carries the error text, the `retryable` flag (always true per §4.1) and
whether the failure was a JSON-parse failure (the "not valid JSON" case
that triggers plain-text wrapping). -/

/-- ValidationConfig of types.ts: `{maxRetries, wrapPlainText}`. -/
structure ValidationConfig where
  maxRetries : Nat
  wrapPlainText : Bool
deriving Repr, DecidableEq

/-- Modelled from the spec: outcome of §4.1 `validate(raw)` —
`Result<Envelope, {error, retryable}>`, with the JSON-parse-failure case
distinguished because §4.2 step 3 branches on it. -/
inductive ValidateOutcome where
  | ok (env : MEnvelope)
  | invalid (error : String) (retryable : Bool) (notJson : Bool)
deriving Repr, DecidableEq

/-- Did validation succeed? -/
def ValidateOutcome.isOk : ValidateOutcome → Bool
  | .ok _ => true
  | .invalid _ _ _ => false

/-- Modelled from the spec: wrapAsResultMessage (§4.1 wrapPlainText) —
a `result` envelope with a fresh session id and current timestamp,
wrapping the text for the given agent. -/
def wrapAsResultMessage (uuid now text agentId : String) : MEnvelope :=
  .result ⟨uuid, now, ⟨agentId, text⟩⟩

/-- Modelled from the spec: createFailureMessage (§4.1) — a failure
envelope with a fresh session id and current timestamp; the agent id is
not set by this constructor (FailurePayload.agent_id is attached by the
caller when known). -/
def createFailureMessage (uuid now code message : String) (cause : Option String) : FailureMessage :=
  ⟨uuid, now, ⟨none, code, message, cause⟩⟩

/-- Modelled from the spec: the VALIDATION_ERROR failure envelope of
§4.2 steps 4–5, with the agent id attached and the message summarizing
the validation error. -/
def validationFailure (uuid now agentId err : String) : FailureMessage :=
  ⟨uuid, now, ⟨some agentId, "VALIDATION_ERROR",
    "Response validation failed: " ++ err, none⟩⟩

/-- Modelled from the spec: the correction loop of §4.2 step 5. `calls`
counts correction-sender invocations so far; the sender is modelled as a
function of the invocation index; `fuel` is the remaining budget
(initially `maxRetries`); `lastErr` is the most recent validation
error. Stops at the first successful validation, otherwise exhausts the
budget and returns a VALIDATION_ERROR failure. -/
def correctionLoop (validate : String → ValidateOutcome) (sender : Nat → String)
    (uuid now agentId : String) : Nat → Nat → String → MEnvelope × Nat
  | 0, calls, lastErr => (.failure (validationFailure uuid now agentId lastErr), calls)
  | fuel + 1, calls, _lastErr =>
    match validate (sender calls) with
    | .ok env => (env, calls + 1)
    | .invalid e _ _ => correctionLoop validate sender uuid now agentId fuel (calls + 1) e

/-- Modelled from the spec: validateWithRetry (§4.2). Returns the final
envelope together with the number of correction-sender invocations.
Steps: (1)–(2) return a valid envelope immediately; (3) wrap plain text
when enabled and the input was not JSON; (4) fail fast without a sender
or with a zero budget; (5) run the correction loop. -/
def validateWithRetry (validate : String → ValidateOutcome)
    (uuid now raw agentId : String) (cfg : ValidationConfig)
    (sender : Option (Nat → String)) : MEnvelope × Nat :=
  match validate raw with
  | .ok env => (env, 0)
  | .invalid err _ notJson =>
    if cfg.wrapPlainText && notJson then (wrapAsResultMessage uuid now raw agentId, 0)
    else
      match sender with
      | none => (.failure (validationFailure uuid now agentId err), 0)
      | some s =>
        if cfg.maxRetries = 0 then (.failure (validationFailure uuid now agentId err), 0)
        else correctionLoop validate s uuid now agentId cfg.maxRetries 0 err

/-! ## Dispatch orchestrator (dispatch.ts, gated version)

The incoming-task parse (`JSON.parse` + TaskMessageSchema, both external
library calls) is abstracted as a `parse : String → Option TaskMessage`
argument. The body of the `try` block — session handling, prompt,
validation and the retry-on-failure composition (steps 4–8 of §4.7,
whose pieces are modelled individually above) — performs external I/O
and may throw; its outcome is modelled as an `Except String MEnvelope`
carried in the context (`error` = an exception with that message escaped
the phase). The `catch` branch and every pre-gate error path are
modelled faithfully. -/

/-- DispatchContext of dispatch.ts, with the abort signal as the flag
`aborted` (its state at the moment the catch runs) and the try-block
outcome abstracted as `execPhase`. -/
structure DispatchContext where
  agents : AgentRegistry
  level : String
  maxRetries : Nat
  aborted : Bool
  execPhase : Except String MEnvelope

/-- dispatchToAgent of dispatch.ts: parse, agent lookup, classify + gate
(short-circuiting on denial), then the execution phase guarded by the
catch that maps an escaped exception to TIMEOUT (abort signal set) or
AGENT_ERROR (cause = the exception message). -/
def dispatchToAgent (parse : String → Option TaskMessage) (uuid now : String)
    (messageJson : String) (ctx : DispatchContext) : MEnvelope :=
  match parse messageJson with
  | none =>
    .failure (createFailureMessage uuid now "VALIDATION_ERROR"
      "Invalid task message format"
      (some "Message must be a valid TaskMessage JSON envelope"))
  | some task =>
    if (lookupAgent ctx.agents task.payload.agent_id).isNone then
      .failure (createFailureMessage uuid now "UNKNOWN_AGENT"
        ("Unknown agent: " ++ task.payload.agent_id)
        (some ("Available agents: " ++ String.intercalate ", " (ctx.agents.map Prod.fst))))
    else
      let classification := classifyAction task ctx.agents
      let decision := determineGate ctx.level classification
      match enforcePreDispatchGate uuid now ⟨task, ctx.level, classification, decision⟩ with
      | .denied response => response
      | .allowed =>
        match ctx.execPhase with
        | .ok env => env
        | .error msg =>
          if ctx.aborted then
            .failure (createFailureMessage uuid now "TIMEOUT"
              "Request timed out or was cancelled" none)
          else
            .failure (createFailureMessage uuid now "AGENT_ERROR"
              "Agent execution failed" (some msg))

/-! ## Auxiliary notions for the theorems -/

/-- Numeric order on autonomy levels: supervised < assisted < autonomous. -/
def levelRank : String → Nat
  | "supervised" => 0
  | "assisted" => 1
  | "autonomous" => 2
  | _ => 0

/-- Numeric order on gate decisions: block < require_approval < proceed. -/
def decisionRank : String → Nat
  | "block" => 0
  | "require_approval" => 1
  | "proceed" => 2
  | _ => 0

/-- `needle` occurs as a contiguous substring of `hay`. -/
def occursIn (needle hay : String) : Prop :=
  ∃ pre post : String, hay = pre ++ needle ++ post

/-! ## C1: the gate policy table -/

/-- C1: determineGate is a pure total function matching the spec table
exactly: supervised maps routine/significant to require_approval and
dangerous to block; assisted maps routine to proceed, significant to
require_approval, dangerous to block; autonomous maps
routine/significant to proceed and dangerous to require_approval; and
any unrecognized level maps every classification to require_approval. -/
theorem c1_determineGate_table :
    determineGate "supervised" "routine" = "require_approval"
  ∧ determineGate "supervised" "significant" = "require_approval"
  ∧ determineGate "supervised" "dangerous" = "block"
  ∧ determineGate "assisted" "routine" = "proceed"
  ∧ determineGate "assisted" "significant" = "require_approval"
  ∧ determineGate "assisted" "dangerous" = "block"
  ∧ determineGate "autonomous" "routine" = "proceed"
  ∧ determineGate "autonomous" "significant" = "proceed"
  ∧ determineGate "autonomous" "dangerous" = "require_approval"
  ∧ ∀ level : String,
      level ∉ (["supervised", "assisted", "autonomous"] : List String) →
      ∀ classification : String,
        determineGate level classification = "require_approval" := by
  refine ⟨rfl, rfl, rfl, rfl, rfl, rfl, rfl, rfl, rfl, ?_⟩
  intro level h classification
  simp only [List.mem_cons, List.not_mem_nil, or_false, not_or] at h
  obtain ⟨h1, h2, h3⟩ := h
  simp [determineGate, h1, h2, h3]

/-- Witness for C1: an unrecognized level maps routine to
require_approval. -/
theorem c1_determineGate_table_witness :
    determineGate "yolo-mode" "routine" = "require_approval" := by
  exact c1_determineGate_table.2.2.2.2.2.2.2.2.2 "yolo-mode" (by decide) "routine"

/-! ## C2: classifier priority order -/

/-- C2: classifyAction follows the priority order: a dangerous lexical
pattern (case-insensitive; e.g. prompts containing "Delete all the old
files" or "git push --force" match) yields dangerous for every target
agent; otherwise a dangerous-set agent yields dangerous; otherwise a
significant-set agent yields significant; otherwise a significant
lexical pattern yields significant; otherwise a routine-set agent yields
routine; and an unknown agent with no pattern match defaults to
routine. -/
theorem c2_classifyAction_priority :
    (∀ (agents : AgentRegistry) (task : TaskMessage),
      matchesDangerous task.payload.prompt = true →
      classifyAction task agents = "dangerous")
  ∧ matchesDangerous "Delete all the old files" = true
  ∧ matchesDangerous "Run git push --force" = true
  ∧ (∀ (agents : AgentRegistry) (task : TaskMessage),
      matchesDangerous task.payload.prompt = false →
      task.payload.agent_id ∈ dangerousAgents →
      classifyAction task agents = "dangerous")
  ∧ (∀ (agents : AgentRegistry) (task : TaskMessage),
      matchesDangerous task.payload.prompt = false →
      task.payload.agent_id ∉ dangerousAgents →
      task.payload.agent_id ∈ significantAgents →
      classifyAction task agents = "significant")
  ∧ (∀ (agents : AgentRegistry) (task : TaskMessage),
      matchesDangerous task.payload.prompt = false →
      task.payload.agent_id ∉ dangerousAgents →
      task.payload.agent_id ∉ significantAgents →
      matchesSignificant task.payload.prompt = true →
      classifyAction task agents = "significant")
  ∧ (∀ (agents : AgentRegistry) (task : TaskMessage),
      matchesDangerous task.payload.prompt = false →
      task.payload.agent_id ∉ dangerousAgents →
      task.payload.agent_id ∉ significantAgents →
      matchesSignificant task.payload.prompt = false →
      task.payload.agent_id ∈ routineAgents →
      classifyAction task agents = "routine")
  ∧ (∀ (agents : AgentRegistry) (task : TaskMessage),
      matchesDangerous task.payload.prompt = false →
      task.payload.agent_id ∉ dangerousAgents →
      task.payload.agent_id ∉ significantAgents →
      matchesSignificant task.payload.prompt = false →
      task.payload.agent_id ∉ routineAgents →
      classifyAction task agents = "routine") := by
  refine ⟨?_, by decide, by decide, ?_, ?_, ?_, ?_, ?_⟩
  · intro agents task h
    simp [classifyAction, h]
  · intro agents task h1 h2
    exact absurd h2 (by simp [dangerousAgents])
  · intro agents task h1 _h2 h3
    simp [classifyAction, h1, dangerousAgents, h3]
  · intro agents task h1 _h2 h3 h4
    simp [classifyAction, h1, dangerousAgents, h3, h4]
  · intro agents task h1 _h2 h3 h4 h5
    simp [classifyAction, h1, dangerousAgents, h3, h4, h5]
  · intro agents task h1 _h2 h3 h4 h5
    simp [classifyAction, h1, dangerousAgents, h3, h4, h5]

/-- Witness for C2: the dangerous pattern overrides the otherwise
routine researcher agent. -/
theorem c2_classifyAction_priority_witness :
    classifyAction ⟨"sess", "ts", ⟨"researcher", "Delete all the old files", none⟩⟩ []
      = "dangerous" := by
  exact c2_classifyAction_priority.1 []
    ⟨"sess", "ts", ⟨"researcher", "Delete all the old files", none⟩⟩ (by decide)

/-! ## C3: validation retry budget -/

/-- If every correction-sender output fails validation, the correction
loop exhausts its fuel, invoking the sender once per unit of fuel, and
ends in a VALIDATION_ERROR failure. -/
theorem correctionLoop_exhausts (validate : String → ValidateOutcome) (s : Nat → String)
    (uuid now agentId : String) (hs : ∀ n, (validate (s n)).isOk = false) :
    ∀ (fuel calls : Nat) (err : String),
      ∃ e, correctionLoop validate s uuid now agentId fuel calls err =
        (.failure (validationFailure uuid now agentId e), calls + fuel) := by
  intro fuel
  induction fuel with
  | zero => intro calls err; exact ⟨err, by simp [correctionLoop]⟩
  | succ n ih =>
    intro calls err
    have hv := hs calls
    cases hvv : validate (s calls) with
    | ok env => rw [hvv] at hv; simp [ValidateOutcome.isOk] at hv
    | invalid e rb nj =>
      obtain ⟨e2, he2⟩ := ih (calls + 1) e
      refine ⟨e2, ?_⟩
      rw [show calls + (n + 1) = (calls + 1) + n by omega]
      rw [← he2]
      simp [correctionLoop, hvv]

/-- C3: validateWithRetry counts only correction attempts against the
maxRetries budget, never the initial validation: an input that validates
on the first attempt returns the parsed envelope with zero sender
invocations regardless of maxRetries; and when the initial validation
fails (without triggering the plain-text wrap) and the sender always
returns invalid output, the sender is invoked exactly maxRetries times
(not maxRetries + 1) and the result is a failure envelope with code
VALIDATION_ERROR. -/
theorem c3_validateWithRetry_budget :
    (∀ (validate : String → ValidateOutcome) (uuid now raw agentId : String)
       (cfg : ValidationConfig) (sender : Option (Nat → String)) (env : MEnvelope),
       validate raw = .ok env →
       validateWithRetry validate uuid now raw agentId cfg sender = (env, 0))
  ∧ (∀ (validate : String → ValidateOutcome) (uuid now raw agentId : String)
       (cfg : ValidationConfig) (s : Nat → String) (err : String) (rb nj : Bool),
       validate raw = .invalid err rb nj →
       ¬(cfg.wrapPlainText = true ∧ nj = true) →
       (∀ n, (validate (s n)).isOk = false) →
       ∃ fm : FailureMessage,
         validateWithRetry validate uuid now raw agentId cfg (some s) =
           (.failure fm, cfg.maxRetries)
         ∧ fm.payload.code = "VALIDATION_ERROR") := by
  constructor
  · intro validate uuid now raw agentId cfg sender env h
    simp [validateWithRetry, h]
  · intro validate uuid now raw agentId cfg s err rb nj hinv hw hs
    have hb : (cfg.wrapPlainText && nj) = false := by
      cases hcw : cfg.wrapPlainText <;> cases hcn : nj <;> simp_all
    by_cases hmr : cfg.maxRetries = 0
    · refine ⟨validationFailure uuid now agentId err, ?_, rfl⟩
      simp [validateWithRetry, hinv, hb, hmr]
    · obtain ⟨e, he⟩ := correctionLoop_exhausts validate s uuid now agentId hs cfg.maxRetries 0 err
      refine ⟨validationFailure uuid now agentId e, ?_, rfl⟩
      rw [show (MEnvelope.failure (validationFailure uuid now agentId e), cfg.maxRetries)
            = (MEnvelope.failure (validationFailure uuid now agentId e), 0 + cfg.maxRetries) by
          rw [Nat.zero_add]]
      rw [← he]
      simp [validateWithRetry, hinv, hb, hmr]

/-- A concrete validator for the C3 witness: accepts exactly the input
"GOOD". -/
def witValidate : String → ValidateOutcome := fun s =>
  if s = "GOOD" then .ok (.other "answer")
  else .invalid "input was not valid JSON" true true

/-- Witness for C3: a first-attempt success never calls the sender even
with budget 5; an always-invalid sender with budget 2 is called exactly
twice and yields a VALIDATION_ERROR failure. -/
theorem c3_validateWithRetry_budget_witness :
    validateWithRetry witValidate "u1" "t1" "GOOD" "coder" ⟨5, false⟩ none
      = (.other "answer", 0)
  ∧ ∃ fm : FailureMessage,
      validateWithRetry witValidate "u1" "t1" "not-json ::" "coder" ⟨2, false⟩
          (some fun _ => "still bad") = (.failure fm, 2)
        ∧ fm.payload.code = "VALIDATION_ERROR" := by
  constructor
  · exact c3_validateWithRetry_budget.1 witValidate "u1" "t1" "GOOD" "coder"
      ⟨5, false⟩ none (.other "answer") rfl
  · have h := c3_validateWithRetry_budget.2 witValidate "u1" "t1" "not-json ::" "coder"
      ⟨2, false⟩ (fun _ => "still bad") "input was not valid JSON" true true rfl
      (by simp) (fun _ => rfl)
    simpa using h

/-! ## C4 and C5: retry-on-failure executor -/

/-- shouldAutoRetry refuses to retry a non-retryable error code and
refuses to retry anything in supervised mode, at every attempt count and
budget. -/
theorem shouldAutoRetry_stops (f : FailureMessage) (level : String) (n maxR : Nat)
    (h : f.payload.code ∈ nonRetryableErrorCodes ∨ level = "supervised") :
    (shouldAutoRetry ⟨f, level, n, maxR⟩).shouldRetry = false := by
  rcases h with h | h
  · by_cases hb : n ≥ maxR <;> simp [shouldAutoRetry, hb, h]
  · by_cases hb : n ≥ maxR <;>
      by_cases hc : f.payload.code ∈ nonRetryableErrorCodes <;>
        simp [shouldAutoRetry, hb, hc, h]

/-- C4: executeWithRetry never invokes the executor and returns the
initial failure unchanged whenever the failure's code is non-retryable
(UNKNOWN_AGENT, SESSION_NOT_FOUND, AUTONOMY_BLOCKED, APPROVAL_REQUIRED)
or the autonomy level is supervised, for every maxRetries value and
every executor; the second component is the executor invocation count. -/
theorem c4_executeWithRetry_no_retry :
    ∀ (failure : FailureMessage) (level : String) (maxRetries : Nat)
      (executor : Nat → MEnvelope),
      (failure.payload.code ∈ nonRetryableErrorCodes ∨ level = "supervised") →
      executeWithRetry failure level maxRetries executor = (.failure failure, 0) := by
  intro failure level maxRetries executor h
  unfold executeWithRetry
  cases maxRetries with
  | zero => rfl
  | succ n =>
    have hd := shouldAutoRetry_stops failure level 0 (n + 1) h
    simp [executeWithRetryGo, hd]

/-- A failure with the non-retryable UNKNOWN_AGENT code, for the C4
witness. -/
def witUnknownAgentFailure : FailureMessage :=
  ⟨"550e8400-e29b-41d4-a716-446655440000", "2024-01-01T00:00:00.000Z",
    ⟨none, "UNKNOWN_AGENT", "Test failure", none⟩⟩

/-- Witness for C4: an UNKNOWN_AGENT failure under assisted mode with
budget 2 is returned unchanged with zero executor invocations. -/
theorem c4_executeWithRetry_no_retry_witness :
    executeWithRetry witUnknownAgentFailure "assisted" 2 (fun _ => .other "x")
      = (.failure witUnknownAgentFailure, 0) := by
  exact c4_executeWithRetry_no_retry witUnknownAgentFailure "assisted" 2
    (fun _ => .other "x") (Or.inl (by decide))

/-- One step of the executeWithRetry loop. -/
theorem executeWithRetryGo_step (executor : Nat → MEnvelope) (level : String)
    (maxR fuel : Nat) (cur : FailureMessage) (attempts : Nat) :
    executeWithRetryGo executor level maxR (fuel + 1) cur attempts =
      if (shouldAutoRetry ⟨cur, level, attempts, maxR⟩).shouldRetry then
        match executor attempts with
        | .failure f => executeWithRetryGo executor level maxR fuel f (attempts + 1)
        | r => (r, attempts + 1)
      else (.failure cur, attempts) := rfl

/-- shouldAutoRetry retries a retryable error code in assisted mode
while the budget is not exhausted. -/
theorem shouldAutoRetry_assisted_retries (f : FailureMessage) (n maxR : Nat)
    (hn : n < maxR) (h : f.payload.code ∈ retryableErrorCodes) :
    (shouldAutoRetry ⟨f, "assisted", n, maxR⟩).shouldRetry = true := by
  have h1 : f.payload.code ∉ nonRetryableErrorCodes := by
    simp only [retryableErrorCodes, List.mem_cons, List.not_mem_nil, or_false] at h
    rcases h with h | h | h <;> simp [nonRetryableErrorCodes, h]
  simp [shouldAutoRetry, Nat.not_le.mpr hn, h1, h]

/-- Initial failure and executor used by the C5 counterexample run. -/
def cexInitialFailure : FailureMessage :=
  ⟨"550e8400-e29b-41d4-a716-446655440000", "2024-01-01T00:00:00.000Z",
    ⟨none, "AGENT_ERROR", "Test failure", none⟩⟩

/-- The failure the counterexample executor returns on its first two
invocations. -/
def cexRetryFailure : FailureMessage :=
  ⟨"550e8400-e29b-41d4-a716-446655440000", "2024-01-01T00:00:00.000Z",
    ⟨none, "AGENT_ERROR", "Attempt failed", none⟩⟩

/-- The success the counterexample executor returns on its third
invocation. -/
def cexSuccess : ResultMessage :=
  ⟨"550e8400-e29b-41d4-a716-446655440000", "2024-01-01T00:00:00.000Z",
    ⟨"coder", "Final success"⟩⟩

/-- An executor that fails on its first two invocations and succeeds on
the third. -/
def cexExecutor : Nat → MEnvelope := fun n =>
  if n < 2 then .failure cexRetryFailure else .result cexSuccess

/-- Counterexample for C5: with an initial retryable failure, assisted
mode, maxRetries 3 and an executor that fails twice then succeeds,
executeWithRetry returns the success after 3 executor invocations, not
after 2 as claimed. -/
theorem c5_two_invocations_cex :
    executeWithRetry cexInitialFailure "assisted" 3 cexExecutor
      = (.result cexSuccess, 3)
  ∧ (executeWithRetry cexInitialFailure "assisted" 3 cexExecutor).2 ≠ 2 := by
  constructor
  · rfl
  · decide

/-- C5 (amended): executeWithRetry, given an initial retryable failure,
autonomy level assisted, maxRetries 3, and an executor that fails twice
then succeeds, returns the executor's success result after exactly 3
executor invocations. -/
theorem c5_executeWithRetry_three_invocations :
    ∀ (f0 f1 f2 : FailureMessage) (r : ResultMessage) (executor : Nat → MEnvelope),
      f0.payload.code ∈ retryableErrorCodes →
      f1.payload.code = "AGENT_ERROR" →
      f2.payload.code = "AGENT_ERROR" →
      executor 0 = .failure f1 →
      executor 1 = .failure f2 →
      executor 2 = .result r →
      executeWithRetry f0 "assisted" 3 executor = (.result r, 3) := by
  intro f0 f1 f2 r executor h0 h1c h2c e0 e1 e2
  have hf1 : f1.payload.code ∈ retryableErrorCodes := by
    simp [retryableErrorCodes, h1c]
  have hf2 : f2.payload.code ∈ retryableErrorCodes := by
    simp [retryableErrorCodes, h2c]
  have d0 := shouldAutoRetry_assisted_retries f0 0 3 (by omega) h0
  have d1 := shouldAutoRetry_assisted_retries f1 1 3 (by omega) hf1
  have d2 := shouldAutoRetry_assisted_retries f2 2 3 (by omega) hf2
  unfold executeWithRetry
  show executeWithRetryGo executor "assisted" 3 (2 + 1) f0 0 = (.result r, 3)
  rw [executeWithRetryGo_step, d0, if_pos rfl, e0]
  show executeWithRetryGo executor "assisted" 3 (1 + 1) f1 1 = (.result r, 3)
  rw [executeWithRetryGo_step, d1, if_pos rfl, e1]
  show executeWithRetryGo executor "assisted" 3 (0 + 1) f2 2 = (.result r, 3)
  rw [executeWithRetryGo_step, d2, if_pos rfl, e2]

/-- Witness for C5 (amended): the concrete counterexample run reaches
the success in exactly 3 invocations. -/
theorem c5_executeWithRetry_three_invocations_witness :
    executeWithRetry cexInitialFailure "assisted" 3 cexExecutor
      = (.result cexSuccess, 3) := by
  exact c5_executeWithRetry_three_invocations cexInitialFailure cexRetryFailure
    cexRetryFailure cexSuccess cexExecutor (by decide) rfl rfl rfl rfl rfl

/-! ## C6: session_id in gate-built envelopes -/

/-- Task used by the C6 counterexample. -/
def cexGateTask : TaskMessage :=
  ⟨"550e8400-e29b-41d4-a716-446655440000", "2024-01-01T00:00:00.000Z",
    ⟨"coder", "Write some code", none⟩⟩

/-- Counterexample for C6: the escalation and failure envelopes built by
the pre-dispatch gate enforcer do carry a session_id field (gates.ts
sets `session_id: ctx.task.session_id` on the escalation and
`session_id: randomUUID()` on the blocked failure), contradicting the
claim that they consist of type, timestamp and payload only. -/
theorem c6_gate_envelopes_have_session_id_cex :
    (createApprovalEscalation "2024-01-01T00:00:00.000Z"
        ⟨cexGateTask, "supervised", "significant", "require_approval"⟩).session_id
      = "550e8400-e29b-41d4-a716-446655440000"
  ∧ (createBlockedFailure "11111111-2222-3333-4444-555555555555"
        "2024-01-01T00:00:00.000Z"
        ⟨cexGateTask, "supervised", "dangerous", "block"⟩).session_id
      = "11111111-2222-3333-4444-555555555555" := ⟨rfl, rfl⟩

/-- C6 (amended): the failure and escalation envelopes built by the
pre-dispatch gate enforcer each carry a session_id: the blocked failure
the freshly generated UUID, and the approval escalation the task's
session_id (session ownership is not stripped from these envelopes). -/
theorem c6_gate_envelope_session_id :
    ∀ (uuid now : String) (ctx : GateContext),
      (createBlockedFailure uuid now ctx).session_id = uuid
    ∧ (createApprovalEscalation now ctx).session_id = ctx.task.session_id :=
  fun _ _ _ => ⟨rfl, rfl⟩

/-! ## C7: approval escalation shape -/

/-- C7: for every gate context whose decision is require_approval, and
likewise for every unrecognized decision value, enforcePreDispatchGate
denies dispatch with an escalation whose decision_id is "approval-"
followed by the task's session_id, whose options are exactly Approve,
Reject, Approve All (switch to autonomous) in that order, and whose
context embeds the target agent, the classification, the autonomy level
and the literal task prompt; and it never allows dispatch for a
decision other than proceed. -/
theorem c7_enforceGate_approval :
    (∀ (uuid now : String) (ctx : GateContext),
      (ctx.decision = "require_approval" ∨
        ctx.decision ∉ (["proceed", "require_approval", "block"] : List String)) →
      enforcePreDispatchGate uuid now ctx =
        .denied (.escalation (createApprovalEscalation now ctx))
      ∧ (createApprovalEscalation now ctx).payload.decision_id =
          "approval-" ++ ctx.task.session_id
      ∧ (createApprovalEscalation now ctx).payload.options =
          [⟨"Approve", "approve"⟩, ⟨"Reject", "reject"⟩,
            ⟨"Approve All (switch to autonomous)", "approve_all"⟩]
      ∧ occursIn ctx.task.payload.agent_id (createApprovalEscalation now ctx).payload.context
      ∧ occursIn ctx.classification (createApprovalEscalation now ctx).payload.context
      ∧ occursIn ctx.autonomyLevel (createApprovalEscalation now ctx).payload.context
      ∧ occursIn ctx.task.payload.prompt (createApprovalEscalation now ctx).payload.context)
  ∧ ∀ (uuid now : String) (ctx : GateContext),
      ctx.decision ≠ "proceed" →
      enforcePreDispatchGate uuid now ctx ≠ .allowed := by
  constructor
  · intro uuid now ctx h
    refine ⟨?_, rfl, rfl, ?_, ?_, ?_, ?_⟩
    · rcases h with h | h
      · simp [enforcePreDispatchGate, h]
      · simp only [List.mem_cons, List.not_mem_nil, or_false, not_or] at h
        obtain ⟨h1, h2, h3⟩ := h
        simp [enforcePreDispatchGate, h1, h2, h3]
    · exact ⟨"**Target Agent**: ",
        "\n**Action Type**: " ++ ctx.classification
          ++ "\n**Autonomy Level**: " ++ ctx.autonomyLevel
          ++ "\n\n**Task Prompt**:\n" ++ ctx.task.payload.prompt
          ++ "\n\nThis action requires user approval under the current autonomy settings.",
        by simp [createApprovalEscalation, String.append_assoc]⟩
    · exact ⟨"**Target Agent**: " ++ ctx.task.payload.agent_id ++ "\n**Action Type**: ",
        "\n**Autonomy Level**: " ++ ctx.autonomyLevel
          ++ "\n\n**Task Prompt**:\n" ++ ctx.task.payload.prompt
          ++ "\n\nThis action requires user approval under the current autonomy settings.",
        by simp [createApprovalEscalation, String.append_assoc]⟩
    · exact ⟨"**Target Agent**: " ++ ctx.task.payload.agent_id ++ "\n**Action Type**: "
          ++ ctx.classification ++ "\n**Autonomy Level**: ",
        "\n\n**Task Prompt**:\n" ++ ctx.task.payload.prompt
          ++ "\n\nThis action requires user approval under the current autonomy settings.",
        by simp [createApprovalEscalation, String.append_assoc]⟩
    · exact ⟨"**Target Agent**: " ++ ctx.task.payload.agent_id ++ "\n**Action Type**: "
          ++ ctx.classification ++ "\n**Autonomy Level**: " ++ ctx.autonomyLevel
          ++ "\n\n**Task Prompt**:\n",
        "\n\nThis action requires user approval under the current autonomy settings.",
        by simp [createApprovalEscalation, String.append_assoc]⟩
  · intro uuid now ctx h
    by_cases h2 : ctx.decision = "require_approval" <;>
      by_cases h3 : ctx.decision = "block" <;>
        simp [enforcePreDispatchGate, h, h2, h3]

/-- Witness for C7: a require_approval context yields the escalation
with the derived decision_id. -/
theorem c7_enforceGate_approval_witness :
    enforcePreDispatchGate "u7" "t7"
        ⟨cexGateTask, "supervised", "significant", "require_approval"⟩ =
      .denied (.escalation (createApprovalEscalation "t7"
        ⟨cexGateTask, "supervised", "significant", "require_approval"⟩)) := by
  exact (c7_enforceGate_approval.1 "u7" "t7"
    ⟨cexGateTask, "supervised", "significant", "require_approval"⟩ (Or.inl rfl)).1

/-! ## C8: monotonicity of the gate policy -/

/-- C8: ordering levels supervised < assisted < autonomous and decisions
block < require_approval < proceed, increasing the autonomy level never
decreases the gate decision at any fixed classification; and for every
level, recognized or not, determineGate never lets a dangerous action
proceed. -/
theorem c8_determineGate_monotone :
    (∀ l1 l2 c : String,
      l1 ∈ (["supervised", "assisted", "autonomous"] : List String) →
      l2 ∈ (["supervised", "assisted", "autonomous"] : List String) →
      c ∈ (["routine", "significant", "dangerous"] : List String) →
      levelRank l1 ≤ levelRank l2 →
      decisionRank (determineGate l1 c) ≤ decisionRank (determineGate l2 c))
  ∧ ∀ level : String, determineGate level "dangerous" ≠ "proceed" := by
  constructor
  · intro l1 l2 c h1 h2 hc
    fin_cases h1 <;> fin_cases h2 <;> fin_cases hc <;> decide
  · intro level
    by_cases h1 : level = "supervised"
    · subst h1; decide
    by_cases h2 : level = "assisted"
    · subst h2; decide
    by_cases h3 : level = "autonomous"
    · subst h3; decide
    simp [determineGate, h1, h2, h3]

/-- Witness for C8: going from supervised to autonomous does not
decrease the decision on routine actions. -/
theorem c8_determineGate_monotone_witness :
    decisionRank (determineGate "supervised" "routine")
      ≤ decisionRank (determineGate "autonomous" "routine") := by
  exact c8_determineGate_monotone.1 "supervised" "autonomous" "routine"
    (by decide) (by decide) (by decide) (by decide)

/-! ## C9: dispatch orchestrator error paths -/

/-- C9: dispatchToAgent is total (it never throws: every path of the
model returns an envelope) and its error paths produce failure
envelopes: a parse failure yields VALIDATION_ERROR; an unregistered
agent yields UNKNOWN_AGENT listing the available agents; a gate denial
returns the gate response verbatim; and when an exception escapes the
execution/validation/retry phase, the failure is TIMEOUT if the external
abort signal is already set at that moment and otherwise AGENT_ERROR
with the exception's message as cause. -/
theorem c9_dispatchToAgent_error_paths :
    (∀ (parse : String → Option TaskMessage) (uuid now messageJson : String)
       (ctx : DispatchContext),
       parse messageJson = none →
       dispatchToAgent parse uuid now messageJson ctx =
         .failure (createFailureMessage uuid now "VALIDATION_ERROR"
           "Invalid task message format"
           (some "Message must be a valid TaskMessage JSON envelope")))
  ∧ (∀ (parse : String → Option TaskMessage) (uuid now messageJson : String)
       (ctx : DispatchContext) (task : TaskMessage),
       parse messageJson = some task →
       (lookupAgent ctx.agents task.payload.agent_id).isNone = true →
       dispatchToAgent parse uuid now messageJson ctx =
         .failure (createFailureMessage uuid now "UNKNOWN_AGENT"
           ("Unknown agent: " ++ task.payload.agent_id)
           (some ("Available agents: "
             ++ String.intercalate ", " (ctx.agents.map Prod.fst)))))
  ∧ (∀ (parse : String → Option TaskMessage) (uuid now messageJson : String)
       (ctx : DispatchContext) (task : TaskMessage) (response : MEnvelope),
       parse messageJson = some task →
       (lookupAgent ctx.agents task.payload.agent_id).isSome = true →
       enforcePreDispatchGate uuid now
         ⟨task, ctx.level, classifyAction task ctx.agents,
           determineGate ctx.level (classifyAction task ctx.agents)⟩ = .denied response →
       dispatchToAgent parse uuid now messageJson ctx = response)
  ∧ (∀ (parse : String → Option TaskMessage) (uuid now messageJson : String)
       (ctx : DispatchContext) (task : TaskMessage) (msg : String),
       parse messageJson = some task →
       (lookupAgent ctx.agents task.payload.agent_id).isSome = true →
       enforcePreDispatchGate uuid now
         ⟨task, ctx.level, classifyAction task ctx.agents,
           determineGate ctx.level (classifyAction task ctx.agents)⟩ = .allowed →
       ctx.execPhase = .error msg →
       dispatchToAgent parse uuid now messageJson ctx =
         (if ctx.aborted then
           .failure (createFailureMessage uuid now "TIMEOUT"
             "Request timed out or was cancelled" none)
         else
           .failure (createFailureMessage uuid now "AGENT_ERROR"
             "Agent execution failed" (some msg)))) := by
  refine ⟨?_, ?_, ?_, ?_⟩
  · intro parse uuid now messageJson ctx h
    simp [dispatchToAgent, h]
  · intro parse uuid now messageJson ctx task hp hl
    simp [dispatchToAgent, hp, hl]
  · intro parse uuid now messageJson ctx task response hp hl hg
    have hn : (lookupAgent ctx.agents task.payload.agent_id).isNone = false := by
      simp [Option.isNone_eq_false_iff, ← Option.isSome_iff_exists, hl]
    simp [dispatchToAgent, hp, hn, hg]
  · intro parse uuid now messageJson ctx task msg hp hl hg he
    have hn : (lookupAgent ctx.agents task.payload.agent_id).isNone = false := by
      simp [Option.isNone_eq_false_iff, ← Option.isSome_iff_exists, hl]
    simp [dispatchToAgent, hp, hn, hg, he]

/-- Task used by the C9 witness: a routine research task that passes the
autonomous gate. -/
def witDispatchTask : TaskMessage :=
  ⟨"550e8400-e29b-41d4-a716-446655440000", "2024-01-01T00:00:00.000Z",
    ⟨"researcher", "Find information about X", none⟩⟩

/-- Context used by the C9 witness: the execution phase throws with the
abort signal not set. -/
def witDispatchCtx : DispatchContext :=
  ⟨[("researcher", ⟨"subagent", "Researches things"⟩)], "autonomous", 2, false,
    .error "Agent crashed"⟩

/-- Witness for C9: an exception escaping the execution phase with the
abort signal clear yields the AGENT_ERROR failure with the exception
message as cause. -/
theorem c9_dispatchToAgent_error_paths_witness :
    dispatchToAgent (fun _ => some witDispatchTask) "u9" "t9" "raw" witDispatchCtx =
      .failure (createFailureMessage "u9" "t9" "AGENT_ERROR"
        "Agent execution failed" (some "Agent crashed")) := by
  have h := c9_dispatchToAgent_error_paths.2.2.2 (fun _ => some witDispatchTask)
    "u9" "t9" "raw" witDispatchCtx witDispatchTask "Agent crashed" rfl
    (by decide) (by decide) rfl
  simpa [witDispatchCtx] using h

/-! ## C10: registry-independence of the classifier -/

/-- C10: classifyAction is independent of its agent-registry argument —
any two registries give the same classification — and depends only on
the task's agent_id and prompt, because the dangerous, significant and
routine agent sets are fixed module constants and the registry parameter
is ignored. -/
theorem c10_classifyAction_registry_independent :
    (∀ (task : TaskMessage) (r1 r2 : AgentRegistry),
      classifyAction task r1 = classifyAction task r2)
  ∧ ∀ (t1 t2 : TaskMessage) (r1 r2 : AgentRegistry),
      t1.payload.agent_id = t2.payload.agent_id →
      t1.payload.prompt = t2.payload.prompt →
      classifyAction t1 r1 = classifyAction t2 r2 := by
  constructor
  · intro task r1 r2
    rfl
  · intro t1 t2 r1 r2 ha hp
    unfold classifyAction
    rw [ha, hp]

/-- Witness for C10: identical agent_id and prompt under different
session metadata and registries classify identically. -/
theorem c10_classifyAction_registry_independent_witness :
    classifyAction ⟨"s1", "t1", ⟨"coder", "Do something", none⟩⟩
        [("coder", ⟨"subagent", "Codes things"⟩)]
      = classifyAction ⟨"s2", "t2", ⟨"coder", "Do something", none⟩⟩ [] := by
  exact c10_classifyAction_registry_independent.2
    ⟨"s1", "t1", ⟨"coder", "Do something", none⟩⟩
    ⟨"s2", "t2", ⟨"coder", "Do something", none⟩⟩
    [("coder", ⟨"subagent", "Codes things"⟩)] [] rfl rfl

end Orca
